import Mathlib

/-!
Verification of the Hitec CAN servo tool core, shallowly embedded from the
Python sources `servo_protocol.py` and `can_interface.py`.

Conventions of the embedding:
* A payload is a `List Nat` of byte values; `struct.pack` with format `B`
  is represented by listing the byte expressions in order.  `struct.pack`
  itself rejects a `B` argument outside `0..255`, so theorems about frames
  built from unmasked inputs carry `< 256` hypotheses on those inputs.
* Python integers are unbounded, so a register value is an `Int`.  For a
  positive modulus Python's `value & 0xFF` equals `value % 256` with
  Lean's `Int.emod`, and Python's arithmetic shift `value >> 8` equals
  Lean's `value / 256` (both round towards negative infinity for a
  positive divisor), so the pair `value & 0xFF`, `(value >> 8) & 0xFF`
  is embedded as `(value % 256).toNat`, `(value / 256 % 256).toNat`.
* Fallible parsing returns an `Option`; a Python `return None` (and the
  enclosing `try/except` that converts a raised error into `None`) is the
  `none` branch.
-/

namespace ServoProtocol

/-- Result of `ServoProtocol.parse_response_message`: the dictionary the
Python code builds for a single-register (`'single_response'`) or
dual-register (`'dual_response'`) reply.  The numeric fields are carried
verbatim; the derived `register_name` entries (a pure display lookup in
the static `REGISTERS` table) are not modelled, as no claim concerns
them. -/
inductive ServoResponse where
  | single (servo_id address value : Nat)
  | dual (servo_id address_a value_a address_b value_b : Nat)
deriving DecidableEq

/-- Embedding of `ServoProtocol.create_write_message` (servo_protocol.py,
lines 57-80).  Packs `[WRITE_SINGLE (0x77), servo_id, address,
value & 0xFF, (value >> 8) & 0xFF]` and pairs it with the fixed
arbitration id `0x000` (the `is_extended` flag only selects the same
numeral written differently in the source). -/
def create_write_message (servo_id address : Nat) (value : Int) : Nat × List Nat :=
  (0x000, [0x77, servo_id, address, (value % 256).toNat, (value / 256 % 256).toNat])

/-- Embedding of `ServoProtocol.create_write_dual_message` (lines 82-109):
`[WRITE_DUAL (0x57), servo_id, address_a, value_a lo, value_a hi,
address_b, value_b lo, value_b hi]`. -/
def create_write_dual_message (servo_id address_a : Nat) (value_a : Int)
    (address_b : Nat) (value_b : Int) : Nat × List Nat :=
  (0x000, [0x57, servo_id, address_a,
           (value_a % 256).toNat, (value_a / 256 % 256).toNat,
           address_b,
           (value_b % 256).toNat, (value_b / 256 % 256).toNat])

/-- Embedding of `ServoProtocol.create_read_message` (lines 111-130):
`[READ_SINGLE (0x72), servo_id, address]`. -/
def create_read_message (servo_id address : Nat) : Nat × List Nat :=
  (0x000, [0x72, servo_id, address])

/-- Embedding of `ServoProtocol.create_read_dual_message` (lines 132-153):
`[READ_DUAL (0x52), servo_id, address_a, address_b]`. -/
def create_read_dual_message (servo_id address_a address_b : Nat) : Nat × List Nat :=
  (0x000, [0x52, servo_id, address_a, address_b])

/-- Embedding of `ServoProtocol.create_save_reset_message` (lines 155-167):
a write of `0xFFFF` to register `0x70`. -/
def create_save_reset_message (servo_id : Nat) : Nat × List Nat :=
  create_write_message servo_id 0x70 0xFFFF

/-- Embedding of `ServoProtocol.parse_response_message` (lines 227-283).
The Python code returns `None` for payloads shorter than 3 bytes, then
dispatches on `data[0]`: `RESPONSE_SINGLE (0x76)` needs at least 5 bytes
and yields `{servo_id: data[1], address: data[2],
value: unpack('<H', data[3:5])}`; `RESPONSE_DUAL (0x56)` needs at least 8
bytes; anything else yields `None`.  `unpack('<H', ..)` of bytes
`lo, hi` is `lo + 256 * hi`.  Indexing `data[i]` on a length-checked
payload is `data.getD i 0`. -/
def parse_response_message (data : List Nat) : Option ServoResponse :=
  if data.length < 3 then none
  else
    let message_type := data.getD 0 0
    let servo_id := data.getD 1 0
    if message_type = 0x76 then
      if data.length < 5 then none
      else
        some (.single servo_id (data.getD 2 0) (data.getD 3 0 + 256 * data.getD 4 0))
    else if message_type = 0x56 then
      if data.length < 8 then none
      else
        some (.dual servo_id
          (data.getD 2 0) (data.getD 3 0 + 256 * data.getD 4 0)
          (data.getD 5 0) (data.getD 6 0 + 256 * data.getD 7 0))
    else
      none

/-- Embedding of `ServoProtocol.create_old_format_write` (lines 285-311):
legacy frame `[0x96, servo_id, address, 0x02, data_low, data_high,
checksum]` with `checksum = (servo_id + address + 0x02 + data_low +
data_high) & 0xFF` — note the sum starts at `servo_id`, after the `0x96`
header. -/
def create_old_format_write (servo_id address : Nat) (value : Int) : Nat × List Nat :=
  let data_low := (value % 256).toNat
  let data_high := (value / 256 % 256).toNat
  let checksum := (servo_id + address + 0x02 + data_low + data_high) % 256
  (0x000, [0x96, servo_id, address, 0x02, data_low, data_high, checksum])

/-- Embedding of `ServoProtocol.create_old_format_read` (lines 313-334):
legacy frame `[0x96, servo_id, address, 0x00, checksum]` with
`checksum = (servo_id + address + 0x00) & 0xFF`. -/
def create_old_format_read (servo_id address : Nat) : Nat × List Nat :=
  let checksum := (servo_id + address + 0x00) % 256
  (0x000, [0x96, servo_id, address, 0x00, checksum])

end ServoProtocol

namespace ServoProtocol

/-- C1: a `WriteSingle` encoding is the 5-byte payload
`[0x77, servo_id, address, value_low, value_high]` with the 16-bit value
split little-endian (low byte at index 3, high byte at index 4, and
`value = lo + 256 * hi`); in particular
`create_write_message 48 0x32 30` yields `[0x77, 0x30, 0x32, 0x1E, 0x00]`. -/
theorem create_write_message_layout :
    (∀ (servo_id address : Nat) (value : Int),
      servo_id < 256 → address < 256 → 0 ≤ value → value < 65536 →
      ∃ lo hi : Nat,
        (create_write_message servo_id address value).2
            = [0x77, servo_id, address, lo, hi]
          ∧ lo < 256 ∧ hi < 256 ∧ value.toNat = lo + 256 * hi)
    ∧ (create_write_message 48 0x32 30).2 = [0x77, 0x30, 0x32, 0x1E, 0x00] := by
  refine ⟨?_, by decide⟩
  intro servo_id address value _ _ hv0 hv1
  refine ⟨(value % 256).toNat, (value / 256 % 256).toNat, rfl, ?_, ?_, ?_⟩ <;> omega

/-- Closed instance of `create_write_message_layout`, discharging its
hypotheses at servo_id 48, address 0x32, value 30. -/
theorem create_write_message_layout_witness :
    ∃ lo hi : Nat,
      (create_write_message 48 0x32 30).2 = [0x77, 48, 0x32, lo, hi]
        ∧ lo < 256 ∧ hi < 256 ∧ (30 : Int).toNat = lo + 256 * hi :=
  create_write_message_layout.1 48 0x32 30 (by decide) (by decide) (by decide) (by decide)

/-- C2: a 5-byte payload `[0x76, servo_id, address, lo, hi]` parses to the
single-register response with that servo id and address and value
`lo + 256 * hi`; in particular `[0x76, 0x30, 0x32, 0xDC, 0x05]` parses to
servo_id 48, address 0x32, value 1500. -/
theorem parse_response_message_single :
    (∀ servo_id address lo hi : Nat,
      parse_response_message [0x76, servo_id, address, lo, hi]
        = some (.single servo_id address (lo + 256 * hi)))
    ∧ parse_response_message [0x76, 0x30, 0x32, 0xDC, 0x05]
        = some (.single 48 0x32 1500) := by
  exact ⟨fun servo_id address lo hi => rfl, by decide⟩

/-- C3: `parse_response_message` is a total function (the Python body
wraps everything in `try/except` and returns `None` on any error), and it
returns `none` whenever the payload is shorter than the recognized tag's
minimum length (5 bytes for the single-register tag 0x76, 8 bytes for the
dual-register tag 0x56) or the first byte is not a recognized response
tag. -/
theorem parse_response_message_malformed :
    ∀ data : List Nat,
      (data.getD 0 0 = 0x76 → data.length < 5 → parse_response_message data = none)
      ∧ (data.getD 0 0 = 0x56 → data.length < 8 → parse_response_message data = none)
      ∧ (data.getD 0 0 ≠ 0x76 → data.getD 0 0 ≠ 0x56 →
          parse_response_message data = none) := by
  intro data
  unfold parse_response_message
  refine ⟨fun htag hlen => ?_, fun htag hlen => ?_, fun h76 h56 => ?_⟩ <;>
    split_ifs <;> simp_all

/-- Closed instance of `parse_response_message_malformed`: the truncated
single-register payload `[0x76, 0x30]` parses to `none`. -/
theorem parse_response_message_malformed_witness :
    parse_response_message [0x76, 0x30] = none :=
  (parse_response_message_malformed [0x76, 0x30]).1 (by decide) (by decide)

/-- C4 counterexample: decoding the payload of an encoded `WriteSingle`
command does not yield a Response at all — at device_id 48, addr 0x32,
value 30 the encoded payload `[0x77, 0x30, 0x32, 0x1E, 0x00]` parses to
`none`, so `decode(encode(command).payload)` does not equal a Response
carrying the command's fields. -/
theorem decode_encoded_write_is_none :
    parse_response_message (create_write_message 48 0x32 30).2 = none := by
  decide

/-- C4 (amended): for write commands, decoding the encoded payload with
its tag byte replaced by the corresponding response tag (0x76 or 0x56)
yields the Response carrying the command's device id, address(es) and
value(s); the encoded payloads of Write, Read and SaveAndReset commands
themselves are not decodable as Responses (they parse to `none`). -/
theorem encode_decode_roundtrip :
    ∀ (servo_id address address_b : Nat) (value value_b : Int),
      0 ≤ value → value < 65536 → 0 ≤ value_b → value_b < 65536 →
      parse_response_message (0x76 :: (create_write_message servo_id address value).2.tail)
          = some (.single servo_id address value.toNat)
      ∧ parse_response_message
            (0x56 :: (create_write_dual_message servo_id address value
                        address_b value_b).2.tail)
          = some (.dual servo_id address value.toNat address_b value_b.toNat)
      ∧ parse_response_message (create_write_message servo_id address value).2 = none
      ∧ parse_response_message
            (create_write_dual_message servo_id address value address_b value_b).2 = none
      ∧ parse_response_message (create_read_message servo_id address).2 = none
      ∧ parse_response_message (create_read_dual_message servo_id address address_b).2
          = none
      ∧ parse_response_message (create_save_reset_message servo_id).2 = none := by
  intro servo_id address address_b value value_b hv0 hv1 hb0 hb1
  refine ⟨?_, ?_, rfl, rfl, rfl, rfl, rfl⟩
  · show some _ = some _
    have h : (value % 256).toNat + 256 * (value / 256 % 256).toNat = value.toNat := by
      omega
    simp [create_write_message, h]
  · show some _ = some _
    have ha : (value % 256).toNat + 256 * (value / 256 % 256).toNat = value.toNat := by
      omega
    have hb : (value_b % 256).toNat + 256 * (value_b / 256 % 256).toNat
        = value_b.toNat := by omega
    simp [create_write_dual_message, ha, hb]

/-- Closed instance of `encode_decode_roundtrip` at servo_id 1,
addresses 2 and 4, values 3 and 5. -/
theorem encode_decode_roundtrip_witness :
    parse_response_message (0x76 :: (create_write_message 1 2 3).2.tail)
        = some (.single 1 2 3)
      ∧ parse_response_message (create_read_message 1 2).2 = none := by
  have h := encode_decode_roundtrip 1 2 4 3 5 (by decide) (by decide) (by decide) (by decide)
  exact ⟨h.1, h.2.2.2.2.2.1⟩

/-- C8 counterexample: the legacy write frame for servo_id 0, address 0,
value 0 is `[0x96, 0, 0, 0x02, 0, 0, 0x02]`; its trailing checksum byte is
0x02, but the additive sum of all preceding bytes including the 0x96
header is `0x96 + 0x02 = 0x98` mod 256, so the checksum does not cover the
header byte. -/
theorem old_format_checksum_counterexample :
    let frame := (create_old_format_write 0 0 0).2
    frame.getLast? ≠ some (frame.dropLast.sum % 256) := by
  decide

/-- C8 (amended): the legacy frames of `create_old_format_write` and
`create_old_format_read` end in a trailing 8-bit checksum equal to the
additive sum, mod 256, of all preceding bytes of the frame excluding the
0x96 header byte (the sum starts at the servo id). -/
theorem old_format_checksum_excludes_header :
    ∀ (servo_id address : Nat) (value : Int),
      servo_id < 256 → address < 256 →
      (let frame := (create_old_format_write servo_id address value).2
       frame.getLast? = some ((frame.dropLast.tail.sum) % 256))
      ∧ (let frame := (create_old_format_read servo_id address).2
         frame.getLast? = some ((frame.dropLast.tail.sum) % 256)) := by
  intro servo_id address value _ _
  constructor
  · show some _ = some _
    simp [create_old_format_write]
    omega
  · show some _ = some _
    simp [create_old_format_read]

/-- Closed instance of `old_format_checksum_excludes_header` at
servo_id 1, address 6, value 0. -/
theorem old_format_checksum_excludes_header_witness :
    (let frame := (create_old_format_write 1 6 0).2
     frame.getLast? = some ((frame.dropLast.tail.sum) % 256))
    ∧ (let frame := (create_old_format_read 1 6).2
       frame.getLast? = some ((frame.dropLast.tail.sum) % 256)) :=
  old_format_checksum_excludes_header 1 6 0 (by decide) (by decide)

end ServoProtocol

namespace CANInterface

/-- Capacity of the bounded receive queue
(`Queue(maxsize=1000)`, can_interface.py line 42). -/
def queueCapacity : Nat := 1000

/-- Embedding of the enqueue step of `CANInterface._receive_worker`
(can_interface.py, lines 146-163), with the FIFO `Queue` as a list whose
head is the oldest entry.  `put_nowait` succeeds exactly when the queue
holds fewer than `queueCapacity` entries and appends at the back.  On
failure the worker pops up to 100 oldest entries with `get_nowait`
(breaking early when the queue empties), retries `put_nowait` once, and
on a second failure silently skips the message.  No branch blocks or
raises. -/
def enqueue_with_overflow (q : List α) (can_msg : α) : List α :=
  if q.length < queueCapacity then q ++ [can_msg]
  else
    let drained := q.drop (min 100 q.length)
    if drained.length < queueCapacity then drained ++ [can_msg] else drained

/-- Sequence of enqueue steps the receive worker performs for a list of
received messages, starting from the empty queue. -/
def receive_enqueue_run (msgs : List α) : List α :=
  msgs.foldl enqueue_with_overflow []

theorem enqueue_with_overflow_length_le (q : List α) (can_msg : α)
    (h : q.length ≤ queueCapacity) :
    (enqueue_with_overflow q can_msg).length ≤ queueCapacity := by
  unfold enqueue_with_overflow
  simp only [queueCapacity] at *
  split_ifs with h1 h2 <;>
    simp only [List.length_append, List.length_drop, List.length_cons,
      List.length_nil] <;> omega

theorem foldl_enqueue_length_le (msgs : List α) (q : List α)
    (h : q.length ≤ queueCapacity) :
    (msgs.foldl enqueue_with_overflow q).length ≤ queueCapacity := by
  induction msgs generalizing q with
  | nil => simpa
  | cons m rest ih =>
      exact ih _ (enqueue_with_overflow_length_le q m h)

theorem foldl_enqueue_fill (msgs : List α) (q : List α)
    (h : q.length + msgs.length ≤ queueCapacity) :
    msgs.foldl enqueue_with_overflow q = q ++ msgs := by
  induction msgs generalizing q with
  | nil => simp
  | cons m rest ih =>
      have hstep : enqueue_with_overflow q m = q ++ [m] := by
        unfold enqueue_with_overflow
        rw [if_pos]
        simp at h
        omega
      simp only [List.foldl_cons, hstep]
      rw [ih (q ++ [m]) (by simp at h ⊢; omega)]
      simp

theorem drop_range' (m s n : Nat) :
    (List.range' s n).drop m = List.range' (s + m) (n - m) := by
  induction n generalizing s m with
  | zero => simp
  | succ k ih =>
      cases m with
      | zero => simp
      | succ j =>
          rw [List.range'_succ, List.drop_succ_cons, ih]
          congr 1 <;> omega

theorem receive_enqueue_run_1100 :
    receive_enqueue_run (List.range 1100) = List.range' 100 1000 := by
  have hsplit : List.range 1100
      = (List.range' 0 1000 ++ [1000]) ++ List.range' 1001 99 := by
    rw [List.range_eq_range']
    have h1 : List.range' 0 1000 ++ List.range' 1000 100 = List.range' 0 1100 := by
      have := List.range'_append 0 1000 100 1
      simpa using this
    have h2 : List.range' 1000 100 = 1000 :: List.range' 1001 99 := by
      rw [List.range'_succ]
    rw [← h1, h2]
    simp
  have hfirst : (List.range' 0 1000).foldl enqueue_with_overflow ([] : List Nat)
      = List.range' 0 1000 := by
    have := foldl_enqueue_fill (List.range' 0 1000) ([] : List Nat)
      (by simp [queueCapacity])
    simpa using this
  have hover : enqueue_with_overflow (List.range' 0 1000) 1000
      = List.range' 100 901 := by
    unfold enqueue_with_overflow
    rw [if_neg (by simp [queueCapacity])]
    have hdrop : (List.range' 0 1000).drop (min 100 (List.range' 0 1000).length)
        = List.range' 100 900 := by
      rw [List.length_range']
      have : min 100 1000 = 100 := by decide
      rw [this, drop_range']
    rw [hdrop, if_pos (by simp [queueCapacity])]
    have h2 := List.range'_append 100 900 1 1
    simpa using h2
  have hrest : (List.range' 1001 99).foldl enqueue_with_overflow (List.range' 100 901)
      = List.range' 100 901 ++ List.range' 1001 99 :=
    foldl_enqueue_fill _ _ (by simp [queueCapacity])
  have hlast : List.range' 100 901 ++ List.range' 1001 99 = List.range' 100 1000 := by
    have := List.range'_append 100 901 99 1
    simpa using this
  unfold receive_enqueue_run
  rw [hsplit, List.foldl_append, List.foldl_append, hfirst]
  simp only [List.foldl_cons, List.foldl_nil]
  rw [hover, hrest, hlast]

/-- C5: the bounded receive queue never exceeds its capacity of 1000 under
any sequence of enqueue steps (the enqueue path is a total function, so it
never blocks or raises; on overflow it evicts up to 100 oldest entries,
retries once, and otherwise drops the newest message), and enqueuing the
1100 messages `0..1099` into an empty queue leaves exactly the 1000
entries `100..1099` — the oldest 100 messages evicted, FIFO order
preserved. -/
theorem receive_queue_bounded :
    (∀ (msgs q : List Nat), q.length ≤ queueCapacity →
      (msgs.foldl enqueue_with_overflow q).length ≤ queueCapacity)
    ∧ receive_enqueue_run (List.range 1100) = List.range' 100 1000
    ∧ (receive_enqueue_run (List.range 1100)).length = 1000 := by
  refine ⟨fun msgs q h => foldl_enqueue_length_le msgs q h, receive_enqueue_run_1100, ?_⟩
  rw [receive_enqueue_run_1100, List.length_range']

/-- Closed instance of `receive_queue_bounded`: one hundred enqueue steps
from the empty queue stay within capacity. -/
theorem receive_queue_bounded_witness :
    ((List.range 100).foldl enqueue_with_overflow ([] : List Nat)).length
      ≤ queueCapacity :=
  receive_queue_bounded.1 (List.range 100) [] (by simp [queueCapacity])

/-- State of a `CANInterface` instance as far as the fault-handling code
touches it: the error counter, the time of the last error, the threshold
`max_errors_per_minute`, the `auto_reset_enabled` flag, the connection
flag, and the receive queue contents.  `reset_attempts` is an
instrumentation counter recording how many times `_auto_reset_bus` has
run, so "exactly one reset sequence executes" is statable. -/
structure BusState where
  bus_error_count : Nat
  last_error_time : Int
  max_errors_per_minute : Nat
  auto_reset_enabled : Bool
  is_connected : Bool
  received_messages : List Nat
  reset_attempts : Nat

/-- State of a fresh `CANInterface` (can_interface.py, lines 38-50):
error count 0, last error time 0, threshold 10, auto-reset enabled,
after a successful `connect` (`is_connected = true`), empty queue. -/
def initBusState : BusState :=
  { bus_error_count := 0
    last_error_time := 0
    max_errors_per_minute := 10
    auto_reset_enabled := true
    is_connected := true
    received_messages := []
    reset_attempts := 0 }

/-- Embedding of `CANInterface._auto_reset_bus` (lines 315-348): clear the
receive queue, disconnect, wait, reconnect with the saved channel and
bitrate (`reconnect_ok` is the outcome of that `connect()` call); on
success the error count is reset to 0, on failure the interface stays
disconnected with the count retained. -/
def auto_reset_bus (reconnect_ok : Bool) (s : BusState) : BusState :=
  let s1 := { s with received_messages := []
                     is_connected := false
                     reset_attempts := s.reset_attempts + 1 }
  if reconnect_ok then
    { s1 with is_connected := true, bus_error_count := 0 }
  else
    s1

/-- Embedding of `CANInterface._handle_bus_error` (lines 289-313): reset
the per-minute error count if more than 60 time units have passed since
the last error, increment it, stamp the error time, and when the count
reaches `max_errors_per_minute` with auto-reset enabled run
`_auto_reset_bus`. -/
def handle_bus_error (reconnect_ok : Bool) (s : BusState) (current_time : Int) :
    BusState :=
  let count0 := if current_time - s.last_error_time > 60 then 0 else s.bus_error_count
  let s1 := { s with bus_error_count := count0 + 1, last_error_time := current_time }
  if s1.max_errors_per_minute ≤ count0 + 1 ∧ s1.auto_reset_enabled = true then
    auto_reset_bus reconnect_ok s1
  else
    s1

/-- Times of eleven fault events, one time unit apart, all within a
60-time-unit window. -/
def elevenFaultTimes : List Int := [1, 2, 3, 4, 5, 6, 7, 8, 9, 10, 11]

/-- C6: with auto-recovery enabled and the default threshold of 10,
eleven calls to the fault handler within 60 time units trigger exactly
one reset sequence (at the tenth fault), and since the reconnect inside
that reset succeeds the fault count returns to 0 there; the eleventh
fault only restarts the count at 1 without another reset. -/
theorem fault_threshold_triggers_one_reset :
    (elevenFaultTimes.foldl (handle_bus_error true) initBusState).reset_attempts = 1
    ∧ ((elevenFaultTimes.take 10).foldl (handle_bus_error true)
        initBusState).bus_error_count = 0
    ∧ ((elevenFaultTimes.take 10).foldl (handle_bus_error true)
        initBusState).reset_attempts = 1
    ∧ (elevenFaultTimes.foldl (handle_bus_error true) initBusState).bus_error_count = 1
    ∧ (elevenFaultTimes.foldl (handle_bus_error true) initBusState).is_connected
        = true := by
  decide

theorem handle_bus_error_disabled_step (reconnect_ok : Bool) (s : BusState)
    (current_time : Int) (h : s.auto_reset_enabled = false) :
    (handle_bus_error reconnect_ok s current_time).reset_attempts = s.reset_attempts
    ∧ (handle_bus_error reconnect_ok s current_time).auto_reset_enabled = false := by
  unfold handle_bus_error
  rw [if_neg (by simp [h])]
  exact ⟨rfl, h⟩

/-- C7: with auto-recovery disabled, no reset sequence is ever triggered
by fault events — for every starting state with `auto_reset_enabled`
false, every sequence of fault-event times, and every reconnect outcome,
folding the fault handler leaves `reset_attempts` unchanged (and the flag
stays disabled). -/
theorem no_reset_when_disabled :
    ∀ (times : List Int) (s : BusState) (reconnect_ok : Bool),
      s.auto_reset_enabled = false →
      (times.foldl (handle_bus_error reconnect_ok) s).reset_attempts = s.reset_attempts
      ∧ (times.foldl (handle_bus_error reconnect_ok) s).auto_reset_enabled = false := by
  intro times
  induction times with
  | nil => exact fun s reconnect_ok h => ⟨rfl, h⟩
  | cons t rest ih =>
      intro s reconnect_ok h
      have hstep := handle_bus_error_disabled_step reconnect_ok s t h
      have htail := ih (handle_bus_error reconnect_ok s t) reconnect_ok hstep.2
      exact ⟨htail.1.trans hstep.1, htail.2⟩

/-- Closed instance of `no_reset_when_disabled`: eleven faults against a
disabled-auto-reset interface trigger no reset. -/
theorem no_reset_when_disabled_witness :
    (elevenFaultTimes.foldl (handle_bus_error true)
        { initBusState with auto_reset_enabled := false }).reset_attempts = 0 :=
  (no_reset_when_disabled elevenFaultTimes
    { initBusState with auto_reset_enabled := false } true rfl).1

/-- Outcome of one `CANInterface.send_message` call: the boolean returned
to the caller and the number of `bus.send` backend invocations the call
made. -/
structure SendOutcome where
  success : Bool
  backend_send_calls : Nat
deriving DecidableEq

/-- Embedding of `CANInterface.send_message` (can_interface.py, lines
184-215).  If `is_connected` is false or the bus handle is absent the
function returns `False` without touching the backend; otherwise it calls
`bus.send` exactly once, returning `True` when the backend accepts the
frame and `False` when the backend raises (the surrounding `try/except`
converts any raised error into the `False` return, so the call itself
never raises), with no retry.  The outcome does not depend on the frame
contents, so the `arbitration_id`/`data` arguments are not modelled. -/
def send_message (is_connected bus_present backend_accepts : Bool) : SendOutcome :=
  if is_connected = false ∨ bus_present = false then
    { success := false, backend_send_calls := 0 }
  else if backend_accepts then
    { success := true, backend_send_calls := 1 }
  else
    { success := false, backend_send_calls := 1 }

/-- C9: `send_message` reports failure only through its boolean result
(the embedding is a total function; the source's `try/except` returns
`False` on any backend error instead of raising): when not connected it
returns false having made zero backend calls, when the backend rejects
the frame it returns false, and it never invokes the backend more than
once (no retry). -/
theorem send_message_no_raise_no_retry :
    ∀ is_connected bus_present backend_accepts : Bool,
      (¬(is_connected = true ∧ bus_present = true) →
        send_message is_connected bus_present backend_accepts
          = { success := false, backend_send_calls := 0 })
      ∧ (backend_accepts = false →
          (send_message is_connected bus_present backend_accepts).success = false)
      ∧ (send_message is_connected bus_present backend_accepts).backend_send_calls
          ≤ 1 := by
  decide

/-- Closed instance of `send_message_no_raise_no_retry`: a send on a
disconnected interface fails with zero backend calls. -/
theorem send_message_no_raise_no_retry_witness :
    send_message false true true = { success := false, backend_send_calls := 0 } :=
  (send_message_no_raise_no_retry false true true).1 (by decide)

end CANInterface

namespace ServoProtocol

/-- C10: for every integer value, including values outside the 16-bit
range (and negative values), the write encoders neither reject nor raise
— the source masks the value with `& 0xFF` shifts instead of validating
it — and the encoded value bytes are exactly `value mod 2^16` in
little-endian (low byte first) order. -/
theorem write_value_truncation :
    ∀ (servo_id address address_b : Nat) (value value_b : Int),
      (create_write_message servo_id address value).2
          = [0x77, servo_id, address,
             (value % 65536).toNat % 256, (value % 65536).toNat / 256]
      ∧ (create_write_dual_message servo_id address value address_b value_b).2
          = [0x57, servo_id, address,
             (value % 65536).toNat % 256, (value % 65536).toNat / 256,
             address_b,
             (value_b % 65536).toNat % 256, (value_b % 65536).toNat / 256] := by
  intro servo_id address address_b value value_b
  have h1 : (value % 256).toNat = (value % 65536).toNat % 256 := by omega
  have h2 : (value / 256 % 256).toNat = (value % 65536).toNat / 256 := by omega
  have h3 : (value_b % 256).toNat = (value_b % 65536).toNat % 256 := by omega
  have h4 : (value_b / 256 % 256).toNat = (value_b % 65536).toNat / 256 := by omega
  exact ⟨by rw [create_write_message, h1, h2],
         by rw [create_write_dual_message, h1, h2, h3, h4]⟩

end ServoProtocol
